import Mathlib

/-!
Shallow embedding of `maya_camera_tools.py` (MayaCameraTools).

Python floats are modelled as real numbers, `math.atan` as `Real.arctan`,
and Python's `ZeroDivisionError` through an `Except`-valued division
`pydiv`.  The Maya scene-graph queries (`cmds.camera(...)`,
`defaultRenderGlobals`) are external collaborators: the camera attributes
become a `Camera` record and the render-settings queries become explicit
parameters (`ignore_film_gate`, an optional render resolution).
Python's `int(...)` truncation toward zero is `pyint`.
-/

namespace MayaCameraTools

/-- The only error the Python source can actually raise in the modelled
    code paths: a `ZeroDivisionError` from `/`. -/
inductive PyErr where
  | zeroDivision
  deriving DecidableEq, Repr

/-- Python float division: raises `ZeroDivisionError` when the divisor
    is zero, otherwise yields the exact quotient. -/
noncomputable def pydiv (a b : ℝ) : Except PyErr ℝ :=
  if b = 0 then .error .zeroDivision else .ok (a / b)

/-- Python `int(x)` on a float: truncation toward zero. -/
noncomputable def pyint (x : ℝ) : ℤ :=
  if 0 ≤ x then ⌊x⌋ else ⌈x⌉

/-- `mm_to_inch = 0.03937007874` (module-level constant, line 7). -/
noncomputable def mm_to_inch : ℝ := 0.03937007874

/-- Snapshot of the camera attributes queried through `cmds.camera`:
    `aspectRatio`, `horizontalFilmAperture`, `verticalFilmAperture`,
    `horizontalFilmOffset`, `verticalFilmOffset`, `filmFitOffset`,
    `focalLength`, `nearClipPlane`, `cameraScale`, `overscan`, `filmFit`.
    `filmFit` is kept as the raw string the query returns. -/
structure Camera where
  film_aspect : ℝ
  aperture_x : ℝ
  aperture_y : ℝ
  offset_x : ℝ
  offset_y : ℝ
  film_fit_offset : ℝ
  focal_length : ℝ
  near_clip : ℝ
  camera_scale : ℝ
  overscan : ℝ
  film_fit : String

/-- `compute_camera_viewing_frustum(camera, window_aspect, apply_overscan)`
    (lines 9-68).  The four mutable locals `scale_x`, `scale_y`,
    `translate_x`, `translate_y` start at `(1, 1, 0, 0)` and each
    `film_fit` branch updates its components; an unrecognized `film_fit`
    string leaves them untouched.  Returns `(left, right, bottom, top)`. -/
noncomputable def compute_camera_viewing_frustum
    (c : Camera) (window_aspect : ℝ) (apply_overscan : Bool) :
    Except PyErr (ℝ × ℝ × ℝ × ℝ) := do
  let focal_len_inch := c.focal_length * mm_to_inch
  let ftn ← pydiv c.near_clip focal_len_inch
  let focal_to_near := ftn * c.camera_scale
  let (scale_x, scale_y, translate_x, translate_y) ←
    if c.film_fit = "fill" then
      if window_aspect < c.film_aspect then do
        let sx ← pydiv window_aspect c.film_aspect
        pure (sx, 1.0, 0.0, 0.0)
      else do
        let sy ← pydiv c.film_aspect window_aspect
        pure (1.0, sy, 0.0, 0.0)
    else if c.film_fit = "horizontal" then do
      let sy ← pydiv c.film_aspect window_aspect
      let ty := if sy > 1.0 then
          c.film_fit_offset * (c.aperture_y - c.aperture_y * sy) / 2.0
        else 0.0
      pure (1.0, sy, 0.0, ty)
    else if c.film_fit = "vertical" then do
      let sx ← pydiv window_aspect c.film_aspect
      let tx := if sx > 1.0 then
          c.film_fit_offset * (c.aperture_x - c.aperture_x * sx) / 2.0
        else 0.0
      pure (sx, 1.0, tx, 0.0)
    else if c.film_fit = "overscan" then
      if window_aspect < c.film_aspect then do
        let sy ← pydiv c.film_aspect window_aspect
        pure (1.0, sy, 0.0, 0.0)
      else do
        let sx ← pydiv window_aspect c.film_aspect
        pure (sx, 1.0, 0.0, 0.0)
    else
      pure (1.0, 1.0, 0.0, 0.0)
  let scale_x := if apply_overscan then scale_x * c.overscan else scale_x
  let scale_y := if apply_overscan then scale_y * c.overscan else scale_y
  pure (focal_to_near * (-0.5 * c.aperture_x * scale_x + c.offset_x + translate_x),
        focal_to_near * ( 0.5 * c.aperture_x * scale_x + c.offset_x + translate_x),
        focal_to_near * (-0.5 * c.aperture_y * scale_y + c.offset_y + translate_y),
        focal_to_near * ( 0.5 * c.aperture_y * scale_y + c.offset_y + translate_y))

/-- `get_camera_port_field_of_view(camera, port_width, port_height)`
    (lines 71-80): probes the frustum at aspect `port_width/port_height`
    with `apply_overscan` left at its default `False` and converts the
    half-extents at the near plane to angles. -/
noncomputable def get_camera_port_field_of_view
    (c : Camera) (port_width port_height : ℝ) : Except PyErr (ℝ × ℝ) := do
  let wa ← pydiv port_width port_height
  let (left, right, bottom, top) ← compute_camera_viewing_frustum c wa false
  let hx ← pydiv ((right - left) * 0.5) c.near_clip
  let vx ← pydiv ((top - bottom) * 0.5) c.near_clip
  pure (Real.arctan hx * 2.0, Real.arctan vx * 2.0)

/-- Lines 124-127 of `get_camera_resolution_fov_ratio`: the render
    resolution retrieved from the render globals (`none` when the
    resolution node is absent) is replaced by `(320, 240)` when missing
    or when either retrieved component is falsy (i.e. `0`). -/
def resolve_render_resolution (res : Option (ℤ × ℤ)) : ℤ × ℤ :=
  match res with
  | none => (320, 240)
  | some (w, h) => if w = 0 ∨ h = 0 then (320, 240) else (w, h)

/-- `get_camera_resolution_fov_ratio(camera)` (lines 107-199) with the two
    render-globals queries made explicit parameters.  Mirrors the source's
    branch structure per `film_fit` string, including the four-way `elif`
    chain of the `"vertical"` branch and the silent fall-through (returning
    the resolved resolution with `fov_ratio = 1.0`) on an unrecognized
    `film_fit`. -/
noncomputable def get_camera_resolution_fov_ratio
    (c : Camera) (ignore_film_gate : Bool) (res : Option (ℤ × ℤ)) :
    Except PyErr (ℤ × ℤ × ℝ) := do
  let (cam_width, cam_height) := resolve_render_resolution res
  if c.film_fit = "horizontal" then do
    let cam_height ←
      if ignore_film_gate = false then do
        let ratio ← pydiv c.aperture_x c.aperture_y
        let new_height ← pydiv (cam_width : ℝ) ratio
        pure (if new_height < (cam_height : ℝ) then pyint new_height else cam_height)
      else pure cam_height
    let (hfov, vfov) ← get_camera_port_field_of_view c (cam_width : ℝ) (cam_height : ℝ)
    let fr ← pydiv hfov vfov
    pure (cam_width, cam_height, fr)
  else if c.film_fit = "vertical" then do
    let ratio ← pydiv c.aperture_y c.aperture_x
    let new_width ← pydiv (cam_height : ℝ) ratio
    -- case 1: film-gate smaller than resolution, film-gate on
    if new_width < (cam_width : ℝ) ∧ ignore_film_gate = false then
      pure (pyint new_width, cam_height, 1.0)
    -- case 2: film-gate smaller than resolution, film-gate off
    else if new_width < (cam_width : ℝ) ∧ ignore_film_gate = true then do
      let (hfov, vfov) ← get_camera_port_field_of_view c new_width (cam_height : ℝ)
      let fr ← pydiv hfov vfov
      pure (cam_width, cam_height, fr)
    -- case 3: film-gate larger than resolution, film-gate on
    else if ignore_film_gate = false then do
      let (hfov, vfov) ← get_camera_port_field_of_view c new_width (cam_height : ℝ)
      let fr ← pydiv hfov vfov
      pure (cam_width, cam_height, fr)
    -- case 4: film-gate larger than resolution, film-gate off
    else if ignore_film_gate = true then do
      let (hfov, vfov) ← get_camera_port_field_of_view c new_width (cam_height : ℝ)
      let fr ← pydiv hfov vfov
      pure (cam_width, cam_height, fr)
    else
      pure (cam_width, cam_height, 1.0)
  else if c.film_fit = "overscan" then do
    let r1 ← pydiv c.aperture_x c.aperture_y
    let new_height ← pydiv (cam_width : ℝ) r1
    let r2 ← pydiv c.aperture_y c.aperture_x
    let new_width ← pydiv (cam_height : ℝ) r2
    if new_width < (cam_width : ℝ) then
      if ignore_film_gate = false then
        pure (pyint new_width, cam_height, 1.0)
      else do
        let (hfov, vfov) ← get_camera_port_field_of_view c new_width (cam_height : ℝ)
        let fr ← pydiv hfov vfov
        pure (cam_width, cam_height, fr)
    else do
      let cam_height := if ignore_film_gate = false then pyint new_height else cam_height
      let (hfov, vfov) ← get_camera_port_field_of_view c (cam_width : ℝ) (cam_height : ℝ)
      let fr ← pydiv hfov vfov
      pure (cam_width, cam_height, fr)
  else if c.film_fit = "fill" then do
    let r2 ← pydiv c.aperture_y c.aperture_x
    let new_width ← pydiv (cam_height : ℝ) r2
    let (hfov, vfov) ←
      if new_width ≥ (cam_width : ℝ) then
        get_camera_port_field_of_view c new_width (cam_height : ℝ)
      else
        get_camera_port_field_of_view c (cam_width : ℝ) (cam_height : ℝ)
    let fr ← pydiv hfov vfov
    pure (cam_width, cam_height, fr)
  else
    pure (cam_width, cam_height, 1.0)

/-- `is_point_clipped(x, y, render_resolution, camera_resolution)`
    (lines 209-234).  Coordinates are exact rationals (`(a - b) / 2` on
    Python ints is float division); resolutions are integer pairs.  The
    mutable `clipped` flag starts `false` and each of the two independent
    checks may set it; this helper is the vertical margin check
    (lines 221-225). -/
def clip_check_vertical (y : ℚ) (render_resolution camera_resolution : ℤ × ℤ)
    (clipped : Bool) : Bool :=
  let new_height : ℚ := ((render_resolution.2 : ℚ) - (camera_resolution.2 : ℚ)) / 2
  if render_resolution.2 ≠ camera_resolution.2 then
    if y < new_height ∨ y ≥ (render_resolution.2 : ℚ) - new_height then true else clipped
  else clipped

/-- The horizontal margin check of `is_point_clipped` (lines 228-232),
    updating the running `clipped` flag. -/
def clip_check_horizontal (x : ℚ) (render_resolution camera_resolution : ℤ × ℤ)
    (clipped : Bool) : Bool :=
  let new_width : ℚ := ((render_resolution.1 : ℚ) - (camera_resolution.1 : ℚ)) / 2
  if render_resolution.1 ≠ camera_resolution.1 then
    if x < new_width ∨ x ≥ (render_resolution.1 : ℚ) - new_width then true else clipped
  else clipped

/-- `is_point_clipped` itself: `clipped` starts `false`, the vertical
    check runs first (lines 221-225), then the horizontal check
    (lines 228-232). -/
def is_point_clipped (x y : ℚ) (render_resolution camera_resolution : ℤ × ℤ) : Bool :=
  clip_check_horizontal x render_resolution camera_resolution
    (clip_check_vertical y render_resolution camera_resolution false)

/-- A camera snapshot with benign values, used to instantiate general
    theorems: unit apertures and aspect, zero offsets, and a focal length
    chosen so that the focal-to-near factor is exactly `1`. -/
noncomputable def cam0 : Camera :=
  { film_aspect := 1
    aperture_x := 1
    aperture_y := 1
    offset_x := 0
    offset_y := 0
    film_fit_offset := 0
    focal_length := 1 / mm_to_inch
    near_clip := 1
    camera_scale := 1
    overscan := 1
    film_fit := "fill" }

/-! ### Helper lemmas -/

theorem mm_to_inch_pos : 0 < mm_to_inch := by norm_num [mm_to_inch]

theorem pydiv_ok (a : ℝ) {b : ℝ} (h : b ≠ 0) : pydiv a b = .ok (a / b) := by
  simp [pydiv, h]

theorem pydiv_zero (a : ℝ) : pydiv a 0 = .error .zeroDivision := by
  simp [pydiv]

theorem except_bind_ok {α β : Type} {e : Except PyErr α} {f : α → Except PyErr β} {b : β} :
    e >>= f = .ok b ↔ ∃ a, e = .ok a ∧ f a = .ok b := by
  cases e with
  | error err => simp [Bind.bind, Except.bind]
  | ok a => simp [Bind.bind, Except.bind]

theorem pyint_le_ceil (x : ℝ) : pyint x ≤ ⌈x⌉ := by
  unfold pyint
  split
  · exact Int.floor_le_ceil x
  · exact le_rfl

theorem pyint_le_of_le_int {x : ℝ} {n : ℤ} (h : x ≤ (n : ℝ)) : pyint x ≤ n :=
  le_trans (pyint_le_ceil x) (Int.ceil_le.mpr h)

theorem pyint_of_nonneg {x : ℝ} (h : 0 ≤ x) : pyint x = ⌊x⌋ := by
  simp [pyint, h]

theorem except_map_ok {α β : Type} {f : α → β} {e : Except PyErr α} {b : β} :
    f <$> e = .ok b ↔ ∃ a, e = .ok a ∧ f a = b := by
  cases e with
  | error err => simp [Functor.map, Except.map]
  | ok a => simp [Functor.map, Except.map]

/-- The focal-to-near factor of `compute_camera_viewing_frustum`
    (lines 25-27), as a total function. -/
noncomputable def focal_to_near (c : Camera) : ℝ :=
  c.near_clip / (c.focal_length * mm_to_inch) * c.camera_scale

/-- The `(scale_x, scale_y, translate_x, translate_y)` quadruple produced
    by the `film_fit` dispatch of `compute_camera_viewing_frustum`
    (lines 29-56), as a total function (divisions taken in ℝ). -/
noncomputable def frustum_transform (c : Camera) (window_aspect : ℝ) : ℝ × ℝ × ℝ × ℝ :=
  if c.film_fit = "fill" then
    if window_aspect < c.film_aspect then (window_aspect / c.film_aspect, 1.0, 0.0, 0.0)
    else (1.0, c.film_aspect / window_aspect, 0.0, 0.0)
  else if c.film_fit = "horizontal" then
    let sy := c.film_aspect / window_aspect
    (1.0, sy, 0.0,
      if sy > 1.0 then c.film_fit_offset * (c.aperture_y - c.aperture_y * sy) / 2.0 else 0.0)
  else if c.film_fit = "vertical" then
    let sx := window_aspect / c.film_aspect
    (sx, 1.0,
      if sx > 1.0 then c.film_fit_offset * (c.aperture_x - c.aperture_x * sx) / 2.0 else 0.0, 0.0)
  else if c.film_fit = "overscan" then
    if window_aspect < c.film_aspect then (1.0, c.film_aspect / window_aspect, 0.0, 0.0)
    else (window_aspect / c.film_aspect, 1.0, 0.0, 0.0)
  else (1.0, 1.0, 0.0, 0.0)

/-- The full frustum rectangle (lines 58-68) as a total function. -/
noncomputable def frustum_rect (c : Camera) (window_aspect : ℝ) (apply_overscan : Bool) :
    ℝ × ℝ × ℝ × ℝ :=
  let q := frustum_transform c window_aspect
  let scale_x := if apply_overscan then q.1 * c.overscan else q.1
  let scale_y := if apply_overscan then q.2.1 * c.overscan else q.2.1
  (focal_to_near c * (-0.5 * c.aperture_x * scale_x + c.offset_x + q.2.2.1),
   focal_to_near c * ( 0.5 * c.aperture_x * scale_x + c.offset_x + q.2.2.1),
   focal_to_near c * (-0.5 * c.aperture_y * scale_y + c.offset_y + q.2.2.2),
   focal_to_near c * ( 0.5 * c.aperture_y * scale_y + c.offset_y + q.2.2.2))

/-- When no division in `compute_camera_viewing_frustum` has a zero
    divisor, the `Except`-valued embedding evaluates to the total
    formulas. -/
theorem compute_frustum_eval (c : Camera) (wa : ℝ) (ao : Bool)
    (hfoc : c.focal_length ≠ 0) (hfa : c.film_aspect ≠ 0) (hwa : wa ≠ 0) :
    compute_camera_viewing_frustum c wa ao = .ok (frustum_rect c wa ao) := by
  have hk : c.focal_length * mm_to_inch ≠ 0 :=
    mul_ne_zero hfoc (ne_of_gt mm_to_inch_pos)
  simp only [compute_camera_viewing_frustum, pydiv_ok _ hk]
  by_cases h1 : c.film_fit = "fill"
  · by_cases hlt : wa < c.film_aspect <;>
      simp [h1, hlt, pydiv_ok _ hfa, pydiv_ok _ hwa, frustum_rect, frustum_transform,
        focal_to_near, bind, Except.bind, pure, Except.pure, div_mul_eq_mul_div]
  · by_cases h2 : c.film_fit = "horizontal"
    · simp [h1, h2, pydiv_ok _ hwa, frustum_rect, frustum_transform, focal_to_near,
        bind, Except.bind, pure, Except.pure, div_mul_eq_mul_div]
    · by_cases h3 : c.film_fit = "vertical"
      · simp [h1, h2, h3, pydiv_ok _ hfa, frustum_rect, frustum_transform, focal_to_near,
          bind, Except.bind, pure, Except.pure, div_mul_eq_mul_div]
      · by_cases h4 : c.film_fit = "overscan"
        · by_cases hlt : wa < c.film_aspect <;>
            simp [h1, h2, h3, h4, hlt, pydiv_ok _ hfa, pydiv_ok _ hwa, frustum_rect,
              frustum_transform, focal_to_near, bind, Except.bind, pure, Except.pure, div_mul_eq_mul_div]
        · simp [h1, h2, h3, h4, frustum_rect, frustum_transform, focal_to_near,
            bind, Except.bind, pure, Except.pure, div_mul_eq_mul_div]

/-- An unrecognized `film_fit` string takes no branch, so only the
    focal-length division runs: the frustum comes back with identity
    scales and no translation, whatever the other attributes are. -/
theorem compute_frustum_unknown_fit (c : Camera) (wa : ℝ) (ao : Bool)
    (h1 : c.film_fit ≠ "fill") (h2 : c.film_fit ≠ "horizontal")
    (h3 : c.film_fit ≠ "vertical") (h4 : c.film_fit ≠ "overscan")
    (hfoc : c.focal_length ≠ 0) :
    compute_camera_viewing_frustum c wa ao = .ok (frustum_rect c wa ao) := by
  have hk : c.focal_length * mm_to_inch ≠ 0 :=
    mul_ne_zero hfoc (ne_of_gt mm_to_inch_pos)
  simp only [compute_camera_viewing_frustum, pydiv_ok _ hk]
  simp [h1, h2, h3, h4, frustum_rect, frustum_transform, focal_to_near,
    bind, Except.bind, pure, Except.pure, div_mul_eq_mul_div]

/-- Positivity of both scale factors produced by the `film_fit` dispatch,
    for positive window and film aspects. -/
theorem frustum_transform_scales_pos (c : Camera) (wa : ℝ)
    (hwa : 0 < wa) (hfa : 0 < c.film_aspect) :
    0 < (frustum_transform c wa).1 ∧ 0 < (frustum_transform c wa).2.1 := by
  unfold frustum_transform
  split_ifs <;> constructor <;> simp <;> positivity

theorem rect_strict (F ax ay ox oy tx ty sx sy : ℝ)
    (hF : 0 < F) (hax : 0 < ax) (hay : 0 < ay) (hsx : 0 < sx) (hsy : 0 < sy) :
    F * (-0.5 * ax * sx + ox + tx) < F * (0.5 * ax * sx + ox + tx) ∧
      F * (-0.5 * ay * sy + oy + ty) < F * (0.5 * ay * sy + oy + ty) := by
  constructor <;>
    nlinarith [mul_pos hF (mul_pos hax hsx), mul_pos hF (mul_pos hay hsy)]

/-- Camera used for counterexamples to C3: all the parameters the claim
    lists as physically valid are fine, but `overscan = 0` (allowed by the
    claim's `overscan ≥ 0`). -/
noncomputable def cam_zero_overscan : Camera := { cam0 with overscan := 0 }

/-- Camera used for counterexamples to C4: a fill-mode camera whose
    window aspect matches the film aspect but with a nonzero film
    offset. -/
noncomputable def cam_offset : Camera := { cam0 with offset_x := 1 }

/-- Camera used for C2: a non-positive aperture and an unrecognized
    `film_fit` string. -/
noncomputable def cam_invalid : Camera := { cam0 with aperture_x := -1, film_fit := "diagonal" }

/-! ### Claims -/

/-- C10: in `get_camera_resolution_fov_ratio` the `(320, 240)` default is
    substituted not only for an absent render resolution but whenever the
    retrieved width or height is `0` (falsy): the supplied pair is then
    replaced in its entirety, exactly as if no resolution had been
    retrieved. -/
theorem C10_falsy_resolution_defaulted (c : Camera) (ign : Bool) (w h : ℤ)
    (hzero : w = 0 ∨ h = 0) :
    get_camera_resolution_fov_ratio c ign (some (w, h)) =
      get_camera_resolution_fov_ratio c ign none := by
  have hres : resolve_render_resolution (some (w, h)) = resolve_render_resolution none := by
    simp [resolve_render_resolution, hzero]
  simp only [get_camera_resolution_fov_ratio, hres]

/-- Witness for C10 at the concrete input `(0, 1080)`. -/
theorem C10_falsy_resolution_defaulted_witness :
    get_camera_resolution_fov_ratio cam0 false (some (0, 1080)) =
      get_camera_resolution_fov_ratio cam0 false none :=
  C10_falsy_resolution_defaulted cam0 false 0 1080 (Or.inl rfl)

/-- C9: the `"fill"` branch of `get_camera_resolution_fov_ratio` never
    consults the ignore-film-gate flag, so two runs on the same camera and
    resolution differing only in that flag return identical results. -/
theorem C9_fill_ignores_film_gate_flag (c : Camera) (hfit : c.film_fit = "fill")
    (res : Option (ℤ × ℤ)) :
    get_camera_resolution_fov_ratio c true res =
      get_camera_resolution_fov_ratio c false res := by
  have h1 : ("fill" : String) ≠ "horizontal" := by decide
  have h2 : ("fill" : String) ≠ "vertical" := by decide
  have h3 : ("fill" : String) ≠ "overscan" := by decide
  simp only [get_camera_resolution_fov_ratio, hfit]
  simp [h1, h2, h3]

/-- Witness for C9 on a concrete fill-mode camera and resolution. -/
theorem C9_fill_ignores_film_gate_flag_witness :
    get_camera_resolution_fov_ratio cam0 true (some (1920, 1080)) =
      get_camera_resolution_fov_ratio cam0 false (some (1920, 1080)) :=
  C9_fill_ignores_film_gate_flag cam0 rfl (some (1920, 1080))

/-- C8: `is_point_clipped` returns `true` exactly when the vertical margin
    check fires (`render_h ≠ camera_h` and, with
    `margin_y = (render_h - camera_h)/2`, `y < margin_y` or
    `y ≥ render_h - margin_y`) or the analogous horizontal check fires;
    the two checks are independent and combined by OR.  In particular
    `is_point_clipped 0 0 (1920, 1080) (1620, 1080) = true`. -/
theorem C8_is_point_clipped_characterization :
    (∀ (x y : ℚ) (rw rh cw ch : ℤ),
      is_point_clipped x y (rw, rh) (cw, ch) = true ↔
        ((rh ≠ ch ∧
            (y < ((rh : ℚ) - (ch : ℚ)) / 2 ∨
              y ≥ (rh : ℚ) - ((rh : ℚ) - (ch : ℚ)) / 2)) ∨
         (rw ≠ cw ∧
            (x < ((rw : ℚ) - (cw : ℚ)) / 2 ∨
              x ≥ (rw : ℚ) - ((rw : ℚ) - (cw : ℚ)) / 2)))) ∧
    is_point_clipped 0 0 (1920, 1080) (1620, 1080) = true := by
  constructor
  · intro x y rw' rh cw ch
    simp only [is_point_clipped, clip_check_horizontal, clip_check_vertical]
    split_ifs <;> simp_all
  · norm_num [is_point_clipped, clip_check_horizontal, clip_check_vertical]

/-- C3 counterexample: all the quantities the claim lists as "physically
    valid" are satisfied (`aperture_x`, `aperture_y`, `focal_length_mm`,
    `near_clip` positive and `overscan ≥ 0`), yet with `apply_overscan =
    true` the frustum degenerates to a point rectangle, so `left < right`
    fails. -/
theorem C3_frustum_strict_counterexample :
    0 < cam_zero_overscan.aperture_x ∧ 0 < cam_zero_overscan.aperture_y ∧
    0 < cam_zero_overscan.focal_length ∧ 0 < cam_zero_overscan.near_clip ∧
    0 ≤ cam_zero_overscan.overscan ∧
    compute_camera_viewing_frustum cam_zero_overscan 1 true = .ok (0, 0, 0, 0) ∧
    ¬((0 : ℝ) < 0) := by
  have hfoc : cam_zero_overscan.focal_length ≠ 0 := by
    norm_num [cam_zero_overscan, cam0, mm_to_inch]
  have h := compute_frustum_eval cam_zero_overscan 1 true hfoc
    (by norm_num [cam_zero_overscan, cam0]) (by norm_num)
  refine ⟨by norm_num [cam_zero_overscan, cam0], by norm_num [cam_zero_overscan, cam0],
    by norm_num [cam_zero_overscan, cam0, mm_to_inch], by norm_num [cam_zero_overscan, cam0],
    by norm_num [cam_zero_overscan, cam0], ?_, by norm_num⟩
  rw [h]
  norm_num [frustum_rect, frustum_transform, focal_to_near,
    cam_zero_overscan, cam0, mm_to_inch, Prod.ext_iff]

/-- C3 (amended): with apertures, focal length, near clip, camera scale,
    window aspect and film aspect all positive, and `overscan > 0`
    whenever `apply_overscan = true`, the frustum call succeeds and
    returns `left < right` and `bottom < top`.  (The claim's tolerance of
    `overscan = 0` is what the counterexample refutes; the source also
    needs positive `camera_scale`, `window_aspect` and `film_aspect`,
    which the spec's data-model invariants supply.) -/
theorem C3_frustum_strict_amended (c : Camera) (wa : ℝ) (ao : Bool)
    (hax : 0 < c.aperture_x) (hay : 0 < c.aperture_y)
    (hfoc : 0 < c.focal_length) (hnear : 0 < c.near_clip)
    (hcs : 0 < c.camera_scale) (hwa : 0 < wa) (hfa : 0 < c.film_aspect)
    (hov : ao = true → 0 < c.overscan) :
    compute_camera_viewing_frustum c wa ao = .ok (frustum_rect c wa ao) ∧
    (frustum_rect c wa ao).1 < (frustum_rect c wa ao).2.1 ∧
    (frustum_rect c wa ao).2.2.1 < (frustum_rect c wa ao).2.2.2 := by
  obtain ⟨hsx, hsy⟩ := frustum_transform_scales_pos c wa hwa hfa
  have hF : 0 < focal_to_near c :=
    mul_pos (div_pos hnear (mul_pos hfoc mm_to_inch_pos)) hcs
  have hsx' : 0 < (if ao = true then (frustum_transform c wa).1 * c.overscan
      else (frustum_transform c wa).1) := by
    cases ao with
    | false => simpa using hsx
    | true => simpa using mul_pos hsx (hov rfl)
  have hsy' : 0 < (if ao = true then (frustum_transform c wa).2.1 * c.overscan
      else (frustum_transform c wa).2.1) := by
    cases ao with
    | false => simpa using hsy
    | true => simpa using mul_pos hsy (hov rfl)
  refine ⟨compute_frustum_eval c wa ao hfoc.ne' hfa.ne' hwa.ne', ?_⟩
  simpa [frustum_rect] using
    rect_strict (focal_to_near c) c.aperture_x c.aperture_y c.offset_x c.offset_y
      (frustum_transform c wa).2.2.1 (frustum_transform c wa).2.2.2 _ _
      hF hax hay hsx' hsy'

/-- Witness for the amended C3 at a concrete camera. -/
theorem C3_frustum_strict_amended_witness :
    compute_camera_viewing_frustum cam0 1 true = .ok (frustum_rect cam0 1 true) ∧
    (frustum_rect cam0 1 true).1 < (frustum_rect cam0 1 true).2.1 ∧
    (frustum_rect cam0 1 true).2.2.1 < (frustum_rect cam0 1 true).2.2.2 :=
  C3_frustum_strict_amended cam0 1 true
    (by norm_num [cam0]) (by norm_num [cam0])
    (by norm_num [cam0, mm_to_inch]) (by norm_num [cam0])
    (by norm_num [cam0]) (by norm_num) (by norm_num [cam0])
    (fun _ => by norm_num [cam0])

/-- C4 counterexample: a fill-mode camera with `window_aspect =
    aspect_ratio = 1` but `offset_x = 1`: the frustum is
    `(1/2, 3/2, -1/2, 1/2)`, so `left = -right` fails — the claim's
    "including arbitrary offset_x and offset_y" is what breaks. -/
theorem C4_fill_symmetry_counterexample :
    cam_offset.film_fit = "fill" ∧ cam_offset.film_aspect = 1 ∧
    compute_camera_viewing_frustum cam_offset 1 false =
      .ok (1 / 2, 3 / 2, -(1 / 2), 1 / 2) ∧
    ¬((1 : ℝ) / 2 = -(3 / 2)) := by
  have hfoc : cam_offset.focal_length ≠ 0 := by
    norm_num [cam_offset, cam0, mm_to_inch]
  have h := compute_frustum_eval cam_offset 1 false hfoc
    (by norm_num [cam_offset, cam0]) (by norm_num)
  refine ⟨rfl, rfl, ?_, by norm_num⟩
  rw [h]
  norm_num [frustum_rect, frustum_transform, focal_to_near,
    cam_offset, cam0, mm_to_inch]

/-- C4 (amended): for `fit_mode = Fill` with `window_aspect =
    aspect_ratio ≠ 0` and both film offsets zero, the frustum is
    symmetric (`left = -right`, `bottom = -top`) with both scale factors
    `1` and no translation. -/
theorem C4_fill_symmetry_amended (c : Camera) (wa : ℝ)
    (hfit : c.film_fit = "fill") (hwa_eq : wa = c.film_aspect)
    (hfa : c.film_aspect ≠ 0) (hfoc : c.focal_length ≠ 0)
    (hox : c.offset_x = 0) (hoy : c.offset_y = 0) :
    frustum_transform c wa = (1.0, 1.0, 0.0, 0.0) ∧
    compute_camera_viewing_frustum c wa false =
      .ok (-(focal_to_near c * (0.5 * c.aperture_x)),
           focal_to_near c * (0.5 * c.aperture_x),
           -(focal_to_near c * (0.5 * c.aperture_y)),
           focal_to_near c * (0.5 * c.aperture_y)) := by
  have hwa : wa ≠ 0 := by rw [hwa_eq]; exact hfa
  have htr : frustum_transform c wa = (1.0, 1.0, 0.0, 0.0) := by
    unfold frustum_transform
    rw [hwa_eq]
    simp [hfit, div_self hfa]
    norm_num
  refine ⟨htr, ?_⟩
  rw [compute_frustum_eval c wa false hfoc hfa hwa]
  simp only [frustum_rect, htr, hox, hoy, Except.ok.injEq, Prod.mk.injEq,
    Bool.false_eq_true, if_false]
  refine ⟨by ring_nf, by ring_nf, by ring_nf, by ring_nf⟩

/-- Witness for the amended C4 at a concrete camera. -/
theorem C4_fill_symmetry_amended_witness :
    frustum_transform cam0 1 = (1.0, 1.0, 0.0, 0.0) ∧
    compute_camera_viewing_frustum cam0 1 false =
      .ok (-(focal_to_near cam0 * (0.5 * cam0.aperture_x)),
           focal_to_near cam0 * (0.5 * cam0.aperture_x),
           -(focal_to_near cam0 * (0.5 * cam0.aperture_y)),
           focal_to_near cam0 * (0.5 * cam0.aperture_y)) :=
  C4_fill_symmetry_amended cam0 1 rfl rfl
    (by norm_num [cam0]) (by norm_num [cam0, mm_to_inch]) rfl rfl

/-- C2 counterexample: `compute_camera_viewing_frustum` performs no
    validation.  With `aperture_x = -1 ≤ 0` and the unrecognized fit mode
    `"diagonal"`, it raises nothing and returns an ordinary rectangle —
    there is no `InvalidCameraConfiguration` failure and no error on an
    unrecognized mode. -/
theorem C2_validation_counterexample :
    cam_invalid.aperture_x ≤ 0 ∧
    cam_invalid.film_fit ≠ "fill" ∧ cam_invalid.film_fit ≠ "horizontal" ∧
    cam_invalid.film_fit ≠ "vertical" ∧ cam_invalid.film_fit ≠ "overscan" ∧
    compute_camera_viewing_frustum cam_invalid 1 false =
      .ok (1 / 2, -(1 / 2), -(1 / 2), 1 / 2) := by
  have hfoc : cam_invalid.focal_length ≠ 0 := by
    norm_num [cam_invalid, cam0, mm_to_inch]
  have h := compute_frustum_unknown_fit cam_invalid 1 false
    (by decide) (by decide) (by decide) (by decide) hfoc
  refine ⟨by norm_num [cam_invalid, cam0], by decide, by decide, by decide, by decide, ?_⟩
  rw [h]
  norm_num [frustum_rect, frustum_transform, focal_to_near,
    cam_invalid, cam0, mm_to_inch]

/-- C2 (amended): `compute_camera_viewing_frustum` validates nothing.
    Whatever the signs of the apertures, near clip or camera scale, and
    for any unrecognized `fit_mode` string, the only possible failure is
    the `ZeroDivisionError` of its divisions; when `focal_length ≠ 0` an
    unrecognized mode silently keeps the identity scales
    `scale_x = scale_y = 1` (the default, not an error). -/
theorem C2_validation_amended (c : Camera) (wa : ℝ) (ao : Bool)
    (h1 : c.film_fit ≠ "fill") (h2 : c.film_fit ≠ "horizontal")
    (h3 : c.film_fit ≠ "vertical") (h4 : c.film_fit ≠ "overscan")
    (hfoc : c.focal_length ≠ 0) :
    compute_camera_viewing_frustum c wa ao = .ok (frustum_rect c wa ao) ∧
    frustum_transform c wa = (1.0, 1.0, 0.0, 0.0) := by
  refine ⟨compute_frustum_unknown_fit c wa ao h1 h2 h3 h4 hfoc, ?_⟩
  simp [frustum_transform, h1, h2, h3, h4]

/-- Witness for the amended C2: a camera with negative scale and unknown
    fit mode still yields a plain rectangle. -/
theorem C2_validation_amended_witness :
    compute_camera_viewing_frustum { cam0 with film_fit := "spherical", camera_scale := -1 } 1 false =
      .ok (frustum_rect { cam0 with film_fit := "spherical", camera_scale := -1 } 1 false) ∧
    frustum_transform { cam0 with film_fit := "spherical", camera_scale := -1 } 1 =
      (1.0, 1.0, 0.0, 0.0) :=
  C2_validation_amended { cam0 with film_fit := "spherical", camera_scale := -1 } 1 false
    (by decide) (by decide) (by decide) (by decide)
    (by norm_num [cam0, mm_to_inch])

/-- The `"vertical"` branch of `get_camera_resolution_fov_ratio`, with the
    divisions discharged: case 1 truncates the reported width and fixes
    `fov_ratio = 1.0`; the arithmetically identical cases 2-4 collapse to
    a single FOV probe at `(new_width, cam_height)`. -/
theorem reconcile_vertical_eq (c : Camera) (hfit : c.film_fit = "vertical")
    (hax : c.aperture_x ≠ 0) (hay : c.aperture_y ≠ 0) (ign : Bool) (res : Option (ℤ × ℤ)) :
    get_camera_resolution_fov_ratio c ign res =
      (if ((resolve_render_resolution res).2 : ℝ) / (c.aperture_y / c.aperture_x) <
            ((resolve_render_resolution res).1 : ℝ) ∧ ign = false then
        .ok (pyint (((resolve_render_resolution res).2 : ℝ) / (c.aperture_y / c.aperture_x)),
          (resolve_render_resolution res).2, 1.0)
      else do
        let (hfov, vfov) ← get_camera_port_field_of_view c
          (((resolve_render_resolution res).2 : ℝ) / (c.aperture_y / c.aperture_x))
          ((resolve_render_resolution res).2 : ℝ)
        let fr ← pydiv hfov vfov
        pure ((resolve_render_resolution res).1, (resolve_render_resolution res).2, fr)) := by
  have hr : c.aperture_y / c.aperture_x ≠ 0 := div_ne_zero hay hax
  have hs1 : ("vertical" : String) ≠ "horizontal" := by decide
  rcases hres : resolve_render_resolution res with ⟨W, H⟩
  simp only [get_camera_resolution_fov_ratio, hfit, hres, hs1,
    if_true, if_false, reduceIte, pydiv_ok c.aperture_y hax, pydiv_ok (H : ℝ) hr,
    bind, Except.bind, pure, Except.pure]
  by_cases hcase : (H : ℝ) / (c.aperture_y / c.aperture_x) < (W : ℝ) ∧ ign = false
  · rw [if_pos hcase, if_pos hcase]
  · rw [if_neg hcase, if_neg hcase]
    cases ign with
    | false =>
      have hnw : ¬((H : ℝ) / (c.aperture_y / c.aperture_x) < (W : ℝ)) := by
        intro h; exact hcase ⟨h, rfl⟩
      rw [if_neg (by simp [hnw]), if_pos rfl]
    | true =>
      by_cases hnw : (H : ℝ) / (c.aperture_y / c.aperture_x) < (W : ℝ)
      · rw [if_pos ⟨hnw, rfl⟩]
      · rw [if_neg (by simp [hnw]), if_neg (by simp), if_pos rfl]

/-- The `"horizontal"` branch of `get_camera_resolution_fov_ratio` with
    the divisions discharged: the camera height shrinks to
    `pyint new_height` exactly when the gate is enforced and
    `new_height < cam_height`, and the FOV is probed at the (possibly
    shrunk) resolution. -/
theorem reconcile_horizontal_eq (c : Camera) (hfit : c.film_fit = "horizontal")
    (hax : c.aperture_x ≠ 0) (hay : c.aperture_y ≠ 0) (ign : Bool) (res : Option (ℤ × ℤ)) :
    get_camera_resolution_fov_ratio c ign res =
      (do
        let ch := if ign = false ∧
            ((resolve_render_resolution res).1 : ℝ) / (c.aperture_x / c.aperture_y) <
              ((resolve_render_resolution res).2 : ℝ) then
            pyint (((resolve_render_resolution res).1 : ℝ) / (c.aperture_x / c.aperture_y))
          else (resolve_render_resolution res).2
        let (hfov, vfov) ← get_camera_port_field_of_view c
          ((resolve_render_resolution res).1 : ℝ) (ch : ℝ)
        let fr ← pydiv hfov vfov
        pure ((resolve_render_resolution res).1, ch, fr)) := by
  have hr : c.aperture_x / c.aperture_y ≠ 0 := div_ne_zero hax hay
  rcases hres : resolve_render_resolution res with ⟨W, H⟩
  simp only [get_camera_resolution_fov_ratio, hfit, hres, if_true, if_false, reduceIte,
    pydiv_ok c.aperture_x hay, pydiv_ok (W : ℝ) hr, bind, Except.bind, pure, Except.pure]
  cases ign with
  | false =>
    by_cases hnh : (W : ℝ) / (c.aperture_x / c.aperture_y) < (H : ℝ) <;> simp [hnh]
  | true => simp

/-- The `"overscan"` branch of `get_camera_resolution_fov_ratio` with the
    divisions discharged. -/
theorem reconcile_overscan_eq (c : Camera) (hfit : c.film_fit = "overscan")
    (hax : c.aperture_x ≠ 0) (hay : c.aperture_y ≠ 0) (ign : Bool) (res : Option (ℤ × ℤ)) :
    get_camera_resolution_fov_ratio c ign res =
      (if ((resolve_render_resolution res).2 : ℝ) / (c.aperture_y / c.aperture_x) <
            ((resolve_render_resolution res).1 : ℝ) then
        if ign = false then
          .ok (pyint (((resolve_render_resolution res).2 : ℝ) / (c.aperture_y / c.aperture_x)),
            (resolve_render_resolution res).2, 1.0)
        else do
          let (hfov, vfov) ← get_camera_port_field_of_view c
            (((resolve_render_resolution res).2 : ℝ) / (c.aperture_y / c.aperture_x))
            ((resolve_render_resolution res).2 : ℝ)
          let fr ← pydiv hfov vfov
          pure ((resolve_render_resolution res).1, (resolve_render_resolution res).2, fr)
      else do
        let ch := if ign = false then
            pyint (((resolve_render_resolution res).1 : ℝ) / (c.aperture_x / c.aperture_y))
          else (resolve_render_resolution res).2
        let (hfov, vfov) ← get_camera_port_field_of_view c
          ((resolve_render_resolution res).1 : ℝ) (ch : ℝ)
        let fr ← pydiv hfov vfov
        pure ((resolve_render_resolution res).1, ch, fr)) := by
  have hrx : c.aperture_x / c.aperture_y ≠ 0 := div_ne_zero hax hay
  have hry : c.aperture_y / c.aperture_x ≠ 0 := div_ne_zero hay hax
  have hs1 : ("overscan" : String) ≠ "horizontal" := by decide
  have hs2 : ("overscan" : String) ≠ "vertical" := by decide
  rcases hres : resolve_render_resolution res with ⟨W, H⟩
  simp only [get_camera_resolution_fov_ratio, hfit, hres, hs1, hs2, if_true, if_false,
    reduceIte, pydiv_ok c.aperture_x hay, pydiv_ok c.aperture_y hax,
    pydiv_ok (W : ℝ) hrx, pydiv_ok (H : ℝ) hry, bind, Except.bind, pure, Except.pure]

/-- The `"fill"` branch of `get_camera_resolution_fov_ratio` with the
    divisions discharged: the reported resolution is unmodified and the
    FOV probe happens at `(new_width, cam_height)` when
    `new_width ≥ cam_width`, else at `(cam_width, cam_height)`. -/
theorem reconcile_fill_eq (c : Camera) (hfit : c.film_fit = "fill")
    (hax : c.aperture_x ≠ 0) (hay : c.aperture_y ≠ 0) (ign : Bool) (res : Option (ℤ × ℤ)) :
    get_camera_resolution_fov_ratio c ign res =
      (do
        let (hfov, vfov) ← get_camera_port_field_of_view c
          (if ((resolve_render_resolution res).1 : ℝ) ≤
              ((resolve_render_resolution res).2 : ℝ) / (c.aperture_y / c.aperture_x) then
            ((resolve_render_resolution res).2 : ℝ) / (c.aperture_y / c.aperture_x)
          else ((resolve_render_resolution res).1 : ℝ))
          ((resolve_render_resolution res).2 : ℝ)
        let fr ← pydiv hfov vfov
        pure ((resolve_render_resolution res).1, (resolve_render_resolution res).2, fr)) := by
  have hry : c.aperture_y / c.aperture_x ≠ 0 := div_ne_zero hay hax
  have hs1 : ("fill" : String) ≠ "horizontal" := by decide
  have hs2 : ("fill" : String) ≠ "vertical" := by decide
  have hs3 : ("fill" : String) ≠ "overscan" := by decide
  rcases hres : resolve_render_resolution res with ⟨W, H⟩
  simp only [get_camera_resolution_fov_ratio, hfit, hres, hs1, hs2, hs3, if_true, if_false,
    reduceIte, pydiv_ok c.aperture_y hax, pydiv_ok (H : ℝ) hry, bind, Except.bind,
    pure, Except.pure, ge_iff_le]
  by_cases hcond : (W : ℝ) ≤ (H : ℝ) / (c.aperture_y / c.aperture_x) <;> simp [hcond]

/-- Extracting the reported resolution from a completed FOV-probe tail of
    `get_camera_resolution_fov_ratio`. -/
theorem probe_out {c : Camera} {pw ph : ℝ} {W₀ H₀ : ℤ} {out : ℤ × ℤ × ℝ}
    (h : (do
        let (hfov, vfov) ← get_camera_port_field_of_view c pw ph
        let fr ← pydiv hfov vfov
        pure (W₀, H₀, fr) : Except PyErr (ℤ × ℤ × ℝ)) = .ok out) :
    out.1 = W₀ ∧ out.2.1 = H₀ := by
  rcases except_bind_ok.mp h with ⟨fv, _, h2⟩
  rcases fv with ⟨a, b⟩
  rcases except_bind_ok.mp h2 with ⟨r, _, h3⟩
  simp only [pure, Except.pure, Except.ok.injEq] at h3
  rw [← h3]
  exact ⟨rfl, rfl⟩

/-- Camera for the C5 example: vertical fit with aperture ratio `1.5`. -/
noncomputable def cam_vertical : Camera :=
  { cam0 with film_fit := "vertical", aperture_x := 1.5 }

/-- C5: in the `"vertical"` branch with `new_width = cam_h *
    (aperture_x/aperture_y)`, exactly the case `new_width < cam_w` with
    the gate enforced truncates: the result is `(⌊new_width⌋, cam_h, 1.0)`;
    in the other three cases the reported width is the unmodified render
    width and `fov_ratio` comes from the FOV probe at
    `(new_width, cam_h)`. -/
theorem C5_vertical_four_cases (c : Camera) (hfit : c.film_fit = "vertical")
    (hax : 0 < c.aperture_x) (hay : 0 < c.aperture_y) (w h : ℤ)
    (hw : 0 < w) (hh : 0 < h) (ign : Bool) :
    ((h : ℝ) * (c.aperture_x / c.aperture_y) < (w : ℝ) ∧ ign = false →
      get_camera_resolution_fov_ratio c ign (some (w, h)) =
        .ok (⌊(h : ℝ) * (c.aperture_x / c.aperture_y)⌋, h, 1.0)) ∧
    (¬((h : ℝ) * (c.aperture_x / c.aperture_y) < (w : ℝ) ∧ ign = false) →
      get_camera_resolution_fov_ratio c ign (some (w, h)) = do
        let (hfov, vfov) ← get_camera_port_field_of_view c
          ((h : ℝ) * (c.aperture_x / c.aperture_y)) (h : ℝ)
        let fr ← pydiv hfov vfov
        pure (w, h, fr)) := by
  have hres : resolve_render_resolution (some (w, h)) = (w, h) := by
    simp [resolve_render_resolution, hw.ne', hh.ne']
  have heq : (h : ℝ) / (c.aperture_y / c.aperture_x) =
      (h : ℝ) * (c.aperture_x / c.aperture_y) := by
    rw [div_div_eq_mul_div, mul_div_assoc]
  have hlem := reconcile_vertical_eq c hfit hax.ne' hay.ne' ign (some (w, h))
  rw [hres] at hlem
  simp only [heq] at hlem
  constructor
  · intro hcase
    rw [hlem, if_pos hcase]
    have hhr : (0 : ℝ) < (h : ℝ) := by exact_mod_cast hh
    have hnn : (0 : ℝ) ≤ (h : ℝ) * (c.aperture_x / c.aperture_y) := by positivity
    rw [pyint_of_nonneg hnn]
  · intro hcase
    rw [hlem, if_neg hcase]

/-- Witness for C5: the spec's example — render `(1920, 1080)`, aperture
    ratio `1.5`, gate enforced — yields `(1620, 1080, 1.0)`. -/
theorem C5_vertical_four_cases_witness :
    get_camera_resolution_fov_ratio cam_vertical false (some (1920, 1080)) =
      .ok (1620, 1080, 1.0) := by
  have h := (C5_vertical_four_cases cam_vertical rfl
      (by norm_num [cam_vertical, cam0]) (by norm_num [cam_vertical, cam0])
      1920 1080 (by norm_num) (by norm_num) false).1
    ⟨by norm_num [cam_vertical, cam0], rfl⟩
  rw [h]
  have he : ((1080 : ℤ) : ℝ) * (cam_vertical.aperture_x / cam_vertical.aperture_y) =
      ((1620 : ℤ) : ℝ) := by norm_num [cam_vertical, cam0]
  rw [he, Int.floor_intCast]

/-- C6: for positive apertures, whatever the fit mode, flag and supplied
    resolution, a successful reconciliation reports dimensions bounded by
    the (possibly defaulted) render dimensions. -/
theorem C6_reconcile_dims_bounded (c : Camera)
    (hax : 0 < c.aperture_x) (hay : 0 < c.aperture_y)
    (ign : Bool) (res : Option (ℤ × ℤ)) :
    ∀ out : ℤ × ℤ × ℝ, get_camera_resolution_fov_ratio c ign res = .ok out →
      out.1 ≤ (resolve_render_resolution res).1 ∧
      out.2.1 ≤ (resolve_render_resolution res).2 := by
  intro out hok
  by_cases h1 : c.film_fit = "horizontal"
  · rw [reconcile_horizontal_eq c h1 hax.ne' hay.ne' ign res] at hok
    obtain ⟨hW, hH⟩ := probe_out hok
    refine ⟨le_of_eq hW, ?_⟩
    rw [hH]
    split_ifs with hc
    · exact pyint_le_of_le_int (le_of_lt hc.2)
    · exact le_rfl
  · by_cases h2 : c.film_fit = "vertical"
    · rw [reconcile_vertical_eq c h2 hax.ne' hay.ne' ign res] at hok
      split_ifs at hok with hc
      · simp only [Except.ok.injEq] at hok
        rw [← hok]
        exact ⟨pyint_le_of_le_int (le_of_lt hc.1), le_rfl⟩
      · obtain ⟨hW, hH⟩ := probe_out hok
        exact ⟨le_of_eq hW, le_of_eq hH⟩
    · by_cases h3 : c.film_fit = "overscan"
      · rw [reconcile_overscan_eq c h3 hax.ne' hay.ne' ign res] at hok
        split_ifs at hok with hnw hign hign2
        · simp only [Except.ok.injEq] at hok
          rw [← hok]
          exact ⟨pyint_le_of_le_int (le_of_lt hnw), le_rfl⟩
        · obtain ⟨hW, hH⟩ := probe_out hok
          exact ⟨le_of_eq hW, le_of_eq hH⟩
        · -- gate enforced: new_height ≤ cam_height because new_width ≥ cam_width
          obtain ⟨hW, hH⟩ := probe_out hok
          refine ⟨le_of_eq hW, ?_⟩
          rw [hH]
          have hry : (0 : ℝ) < c.aperture_y / c.aperture_x := div_pos hay hax
          have h6 : ((resolve_render_resolution res).1 : ℝ) ≤
              ((resolve_render_resolution res).2 : ℝ) / (c.aperture_y / c.aperture_x) :=
            not_lt.mp hnw
          apply pyint_le_of_le_int
          have h5 : ((resolve_render_resolution res).1 : ℝ) * (c.aperture_y / c.aperture_x) ≤
              ((resolve_render_resolution res).2 : ℝ) :=
            calc ((resolve_render_resolution res).1 : ℝ) * (c.aperture_y / c.aperture_x)
                ≤ ((resolve_render_resolution res).2 : ℝ) / (c.aperture_y / c.aperture_x) *
                    (c.aperture_y / c.aperture_x) :=
                  mul_le_mul_of_nonneg_right h6 hry.le
              _ = ((resolve_render_resolution res).2 : ℝ) := div_mul_cancel₀ _ hry.ne'
          calc ((resolve_render_resolution res).1 : ℝ) / (c.aperture_x / c.aperture_y)
              = ((resolve_render_resolution res).1 : ℝ) * (c.aperture_y / c.aperture_x) := by
                rw [div_eq_mul_inv, inv_div]
            _ ≤ ((resolve_render_resolution res).2 : ℝ) := h5
        · obtain ⟨hW, hH⟩ := probe_out hok
          exact ⟨le_of_eq hW, le_of_eq hH⟩
      · by_cases h4 : c.film_fit = "fill"
        · rw [reconcile_fill_eq c h4 hax.ne' hay.ne' ign res] at hok
          obtain ⟨hW, hH⟩ := probe_out hok
          exact ⟨le_of_eq hW, le_of_eq hH⟩
        · -- unknown fit mode: silent fall-through returns the resolved pair
          simp only [get_camera_resolution_fov_ratio, h1, h2, h3, h4, if_false,
            reduceIte, pure, Except.pure, Except.ok.injEq] at hok
          rw [← hok]
          exact ⟨le_rfl, le_rfl⟩

/-- Witness for C6 on a camera with an unrecognized fit mode (where the
    reconciliation evaluates in closed form). -/
theorem C6_reconcile_dims_bounded_witness :
    get_camera_resolution_fov_ratio { cam0 with film_fit := "x" } false (some (1920, 1080)) =
      .ok (1920, 1080, 1.0) ∧
    (1920 : ℤ) ≤ (resolve_render_resolution (some (1920, 1080))).1 ∧
    (1080 : ℤ) ≤ (resolve_render_resolution (some (1920, 1080))).2 := by
  have e1 : ({ cam0 with film_fit := "x" } : Camera).film_fit ≠ "horizontal" := by decide
  have e2 : ({ cam0 with film_fit := "x" } : Camera).film_fit ≠ "vertical" := by decide
  have e3 : ({ cam0 with film_fit := "x" } : Camera).film_fit ≠ "overscan" := by decide
  have e4 : ({ cam0 with film_fit := "x" } : Camera).film_fit ≠ "fill" := by decide
  have hev : get_camera_resolution_fov_ratio { cam0 with film_fit := "x" } false
      (some (1920, 1080)) = .ok (1920, 1080, 1.0) := by
    simp [get_camera_resolution_fov_ratio, resolve_render_resolution, e1, e2, e3, e4,
      pure, Except.pure]
  exact ⟨hev,
    C6_reconcile_dims_bounded { cam0 with film_fit := "x" }
      (by norm_num [cam0]) (by norm_num [cam0]) false (some (1920, 1080))
      (1920, 1080, 1.0) hev⟩

/-- C7: `get_camera_port_field_of_view` fails with the division-by-zero
    error when the port height is `0`; it never applies overscan (the
    result is independent of the camera's `overscan` attribute); and on
    success it returns `2·atan(((right-left)/2)/near_clip)` and
    `2·atan(((top-bottom)/2)/near_clip)` for the frustum probed at aspect
    `width/height` with `apply_overscan = false`. -/
theorem C7_fov_formula (c : Camera) (w h o : ℝ) :
    (h = 0 → get_camera_port_field_of_view c w h = .error .zeroDivision) ∧
    (get_camera_port_field_of_view { c with overscan := o } w h =
      get_camera_port_field_of_view c w h) ∧
    (∀ l r b t : ℝ, h ≠ 0 → c.near_clip ≠ 0 →
      compute_camera_viewing_frustum c (w / h) false = .ok (l, r, b, t) →
      get_camera_port_field_of_view c w h =
        .ok (2 * Real.arctan ((r - l) / 2 / c.near_clip),
             2 * Real.arctan ((t - b) / 2 / c.near_clip))) := by
  refine ⟨?_, ?_, ?_⟩
  · intro h0
    simp [get_camera_port_field_of_view, h0, pydiv, bind, Except.bind]
  · rfl
  · intro l r b t hne hnear hcomp
    simp only [get_camera_port_field_of_view, pydiv_ok w hne, bind, Except.bind, hcomp,
      pydiv_ok _ hnear, pure, Except.pure, Except.ok.injEq, Prod.mk.injEq]
    have e1 : (r - l) * 0.5 / c.near_clip = (r - l) / 2 / c.near_clip := by ring
    have e2 : (t - b) * 0.5 / c.near_clip = (t - b) / 2 / c.near_clip := by ring
    exact ⟨by rw [e1]; ring, by rw [e2]; ring⟩

/-- Witness for C7: a zero height errors; overscan is irrelevant; and the
    concrete probe of `cam0` at `(2, 1)` matches the stated formula. -/
theorem C7_fov_formula_witness :
    get_camera_port_field_of_view cam0 2 0 = .error .zeroDivision ∧
    get_camera_port_field_of_view { cam0 with overscan := 5 } 2 1 =
      get_camera_port_field_of_view cam0 2 1 ∧
    get_camera_port_field_of_view cam0 2 1 =
      .ok (2 * Real.arctan ((1 / 2 - -(1 / 2)) / 2 / cam0.near_clip),
           2 * Real.arctan ((1 / 4 - -(1 / 4)) / 2 / cam0.near_clip)) := by
  have hcomp : compute_camera_viewing_frustum cam0 (2 / 1) false =
      .ok (-(1 / 2), 1 / 2, -(1 / 4), 1 / 4) := by
    rw [compute_frustum_eval cam0 (2 / 1) false (by norm_num [cam0, mm_to_inch])
      (by norm_num [cam0]) (by norm_num)]
    norm_num [frustum_rect, frustum_transform, focal_to_near, cam0, mm_to_inch, Prod.ext_iff]
  exact ⟨(C7_fov_formula cam0 2 0 5).1 rfl,
    (C7_fov_formula cam0 2 1 5).2.1,
    (C7_fov_formula cam0 2 1 5).2.2 (-(1 / 2)) (1 / 2) (-(1 / 4)) (1 / 4) (by norm_num)
      (by norm_num [cam0]) hcomp⟩

/-- C1 (amended): in the `"fill"` branch the probe width is
    `new_width = cam_h * (aperture_x / aperture_y)` — the same aperture
    ratio as the other modes, not the inverse one the spec states; the
    FOV is probed at `(new_width, cam_h)` when `new_width ≥ cam_w` and at
    `(cam_w, cam_h)` otherwise, `fov_ratio` is horizontal/vertical of the
    probe, and the reported dimensions are unmodified. -/
theorem C1_fill_probe_amended (c : Camera) (hfit : c.film_fit = "fill")
    (hax : c.aperture_x ≠ 0) (hay : c.aperture_y ≠ 0)
    (ign : Bool) (res : Option (ℤ × ℤ)) :
    get_camera_resolution_fov_ratio c ign res =
      (do
        let (hfov, vfov) ← get_camera_port_field_of_view c
          (if ((resolve_render_resolution res).1 : ℝ) ≤
              ((resolve_render_resolution res).2 : ℝ) * (c.aperture_x / c.aperture_y) then
            ((resolve_render_resolution res).2 : ℝ) * (c.aperture_x / c.aperture_y)
          else ((resolve_render_resolution res).1 : ℝ))
          ((resolve_render_resolution res).2 : ℝ)
        let fr ← pydiv hfov vfov
        pure ((resolve_render_resolution res).1, (resolve_render_resolution res).2, fr)) := by
  have heq : ((resolve_render_resolution res).2 : ℝ) / (c.aperture_y / c.aperture_x) =
      ((resolve_render_resolution res).2 : ℝ) * (c.aperture_x / c.aperture_y) := by
    rw [div_div_eq_mul_div, mul_div_assoc]
  rw [reconcile_fill_eq c hfit hax hay ign res, heq]

/-- Witness for the amended C1 at a concrete fill camera and resolution. -/
theorem C1_fill_probe_amended_witness :
    get_camera_resolution_fov_ratio cam0 false (some (100, 50)) =
      (do
        let (hfov, vfov) ← get_camera_port_field_of_view cam0
          (if ((resolve_render_resolution (some (100, 50))).1 : ℝ) ≤
              ((resolve_render_resolution (some (100, 50))).2 : ℝ) *
                (cam0.aperture_x / cam0.aperture_y) then
            ((resolve_render_resolution (some (100, 50))).2 : ℝ) *
              (cam0.aperture_x / cam0.aperture_y)
          else ((resolve_render_resolution (some (100, 50))).1 : ℝ))
          ((resolve_render_resolution (some (100, 50))).2 : ℝ)
        let fr ← pydiv hfov vfov
        pure ((resolve_render_resolution (some (100, 50))).1,
          (resolve_render_resolution (some (100, 50))).2, fr)) :=
  C1_fill_probe_amended cam0 rfl (by norm_num [cam0]) (by norm_num [cam0])
    false (some (100, 50))

/-- Modelled from the spec (claim C1, §4.3 Fill): probe width
    `new_width = cam_h * (aperture_y/aperture_x)` — the inverse aperture
    ratio; probe the FOV at `(new_width, cam_h)` if `new_width ≥ cam_w`,
    else at `(cam_w, cam_h)`; `fov_ratio` = horizontal/vertical of the
    probe; the reported resolution is unmodified.  (Transcribed for
    comparison with the source's fill branch.) -/
noncomputable def reconcile_fill_claimed (c : Camera) (res : Option (ℤ × ℤ)) :
    Except PyErr (ℤ × ℤ × ℝ) := do
  let (cam_width, cam_height) := resolve_render_resolution res
  let new_width := (cam_height : ℝ) * (c.aperture_y / c.aperture_x)
  let (hfov, vfov) ← get_camera_port_field_of_view c
    (if new_width ≥ (cam_width : ℝ) then new_width else (cam_width : ℝ)) (cam_height : ℝ)
  let fr ← pydiv hfov vfov
  pure (cam_width, cam_height, fr)

/-- Camera exposing the C1 discrepancy: aperture ratio `2`. -/
noncomputable def cam_fill_wide : Camera :=
  { cam0 with film_aspect := 2, aperture_x := 2 }

/-- C1 counterexample: at aperture ratio `2` and render `(100, 100)`,
    the source's fill branch computes `new_width = 100/(1/2) = 200 ≥ 100`
    and probes at `(200, 100)` (ratio `arctan 1 / arctan (1/2) ≠ 1`),
    while the claim's inverse-ratio formula gives `new_width = 50 < 100`
    and probes at `(100, 100)` (ratio `1`); the results differ. -/
theorem C1_fill_probe_counterexample :
    get_camera_resolution_fov_ratio cam_fill_wide false (some (100, 100)) ≠
      reconcile_fill_claimed cam_fill_wide (some (100, 100)) := by
  have hres : resolve_render_resolution (some (100, 100)) = (100, 100) := by
    norm_num [resolve_render_resolution]
  have hnear : cam_fill_wide.near_clip ≠ 0 := by norm_num [cam_fill_wide, cam0]
  have hr : cam_fill_wide.aperture_y / cam_fill_wide.aperture_x = 1 / 2 := by
    norm_num [cam_fill_wide, cam0]
  have hpos : (0 : ℝ) < Real.arctan (1 / 2) := by
    have h := Real.arctan_strictMono (show (0 : ℝ) < 1 / 2 by norm_num)
    rwa [Real.arctan_zero] at h
  have hlt : Real.arctan (1 / 2) < Real.arctan 1 := Real.arctan_strictMono (by norm_num)
  have hne2 : Real.arctan (1 / 2) * 2.0 ≠ 0 := mul_ne_zero hpos.ne' (by norm_num)
  have hfovL : get_camera_port_field_of_view cam_fill_wide 200 100 =
      .ok (Real.arctan 1 * 2.0, Real.arctan (1 / 2) * 2.0) := by
    have hcomp : compute_camera_viewing_frustum cam_fill_wide ((200 : ℝ) / 100) false =
        .ok (-1, 1, -(1 / 2), 1 / 2) := by
      rw [compute_frustum_eval cam_fill_wide ((200 : ℝ) / 100) false
        (by norm_num [cam_fill_wide, cam0, mm_to_inch]) (by norm_num [cam_fill_wide, cam0])
        (by norm_num)]
      norm_num [frustum_rect, frustum_transform, focal_to_near, cam_fill_wide, cam0,
        mm_to_inch, Prod.ext_iff]
    simp only [get_camera_port_field_of_view,
      pydiv_ok (200 : ℝ) (show (100 : ℝ) ≠ 0 by norm_num), bind, Except.bind, hcomp,
      pydiv_ok _ hnear, pure, Except.pure]
    norm_num [cam_fill_wide, cam0]
  have hfovR : get_camera_port_field_of_view cam_fill_wide 100 100 =
      .ok (Real.arctan (1 / 2) * 2.0, Real.arctan (1 / 2) * 2.0) := by
    have hcomp : compute_camera_viewing_frustum cam_fill_wide ((100 : ℝ) / 100) false =
        .ok (-(1 / 2), 1 / 2, -(1 / 2), 1 / 2) := by
      rw [compute_frustum_eval cam_fill_wide ((100 : ℝ) / 100) false
        (by norm_num [cam_fill_wide, cam0, mm_to_inch]) (by norm_num [cam_fill_wide, cam0])
        (by norm_num)]
      norm_num [frustum_rect, frustum_transform, focal_to_near, cam_fill_wide, cam0,
        mm_to_inch, Prod.ext_iff]
    simp only [get_camera_port_field_of_view,
      pydiv_ok (100 : ℝ) (show (100 : ℝ) ≠ 0 by norm_num), bind, Except.bind, hcomp,
      pydiv_ok _ hnear, pure, Except.pure]
    norm_num [cam_fill_wide, cam0]
  have hL : get_camera_resolution_fov_ratio cam_fill_wide false (some (100, 100)) =
      .ok (100, 100, Real.arctan 1 * 2.0 / (Real.arctan (1 / 2) * 2.0)) := by
    rw [reconcile_fill_eq cam_fill_wide rfl (by norm_num [cam_fill_wide, cam0])
      (by norm_num [cam_fill_wide, cam0]) false (some (100, 100))]
    simp only [hres]
    push_cast
    rw [hr]
    rw [if_pos (by norm_num : (100 : ℝ) ≤ (100 : ℝ) / (1 / 2))]
    rw [show (100 : ℝ) / (1 / 2) = 200 by norm_num, hfovL]
    simp only [bind, Except.bind, pydiv_ok _ hne2, pure, Except.pure]
  have hRc : reconcile_fill_claimed cam_fill_wide (some (100, 100)) = .ok (100, 100, 1.0) := by
    simp only [reconcile_fill_claimed, hres]
    push_cast
    rw [hr]
    rw [if_neg (by norm_num : ¬((100 : ℝ) * (1 / 2) ≥ (100 : ℝ)))]
    rw [hfovR]
    simp only [bind, Except.bind, pydiv_ok _ hne2, pure, Except.pure]
    rw [div_self hne2]
    norm_num
  rw [hL, hRc]
  intro hcontra
  simp only [Except.ok.injEq, Prod.mk.injEq] at hcontra
  obtain ⟨-, -, hX⟩ := hcontra
  rw [div_eq_iff hne2] at hX
  nlinarith [hlt, hX]

end MayaCameraTools
